import Mathlib

/-!
Shallow embedding of the `Suushmaaa/sem-backend` service
(`src/keyword_service.py` and `src/main.py`) and verification of its
natural-language specification.

Python strings are `String`, Python ints are `Nat`/`Int`, Python floats are
modelled as rationals (`ℚ`), Python dicts with fixed keys are structures, the
`cpc_recommendations` dict (string-keyed, insertion-ordered, overwriting) is an
association list, and Python exceptions are `Except`/an explicit exception
type.
-/

/-- Model of Python `round(x, 2)`: round to the nearest multiple of 1/100.
Python uses round-half-to-even on binary floats; on the exact decimal values
produced by this program the two conventions coincide (no half-cent ties
arise). -/
def round2 (q : ℚ) : ℚ := ((round (q * 100) : ℤ) : ℚ) / 100

/-- Model of Python `str.strip()`: drop leading and trailing whitespace. -/
def pyStrip (s : String) : String :=
  String.mk (((s.toList.dropWhile Char.isWhitespace).reverse.dropWhile Char.isWhitespace).reverse)

/-- Model of Python `str.lower()` (ASCII letters, which is all this program
feeds it). -/
def pyLower (s : String) : String :=
  String.mk (s.toList.map Char.toLower)

/-- Model of Python `str.split()` with no argument: split on whitespace runs,
discarding empty fragments. -/
def pySplitWs (s : String) : List String :=
  ((s.toList.splitOnP Char.isWhitespace).map (fun cs => String.mk cs)).filter
    (fun t => t ≠ "")

/-- Model of Python `pat in s` (substring containment). -/
def pyContains (s pat : String) : Bool :=
  decide (List.IsInfix pat.toList s.toList)

/-- A keyword record as produced by `get_keyword_ideas_from_google`
(`src/keyword_service.py` lines 105-111): keys `keyword`, `search_volume`,
`competition`, `cpc_low`, `cpc_high`. -/
structure Keyword where
  keyword : String
  search_volume : Nat
  competition : String
  cpc_low : ℚ
  cpc_high : ℚ
deriving DecidableEq, Repr

/-- `base_volumes` table, `src/keyword_service.py` line 100. -/
def base_volumes : List Nat := [1000, 2500, 5000, 1200, 800, 3200, 4500, 600, 1800, 2200]

/-- `competitions` table, `src/keyword_service.py` line 101. -/
def competitions : List String := ["LOW", "MEDIUM", "HIGH"]

/-- The suffix list of the mock generator, `src/keyword_service.py` line 104. -/
def mock_suffixes : List String := ["", " online", " shop", " buy", " best", " reviews"]

/-- One record of the inner loop body of `get_keyword_ideas_from_google`
(`src/keyword_service.py` lines 105-111): `i` is the index of the seed in the
outer `enumerate` loop.  `getD` is used for the (always in-range) list
indexing `base_volumes[i % len(base_volumes)]` and
`competitions[i % len(competitions)]`. -/
def mkMockKeyword (i : Nat) (seed suffix : String) : Keyword :=
  { keyword := pyStrip (seed ++ suffix)
  , search_volume := base_volumes.getD (i % base_volumes.length) 0 + i * 100
  , competition := competitions.getD (i % competitions.length) ""
  , cpc_low := round2 ((1 : ℚ) / 2 + (i : ℚ) * (3 / 10))
  , cpc_high := round2 ((12 : ℚ) / 10 + (i : ℚ) * (4 / 10)) }

/-- `get_keyword_ideas_from_google`, mocked path (`src/keyword_service.py`
lines 99-114): for each of the first 10 seeds, emit the 6 suffix variants. -/
def get_keyword_ideas_from_google (seed_keywords : List String) : List Keyword :=
  ((seed_keywords.take 10).enum.map (fun p =>
    mock_suffixes.map (fun suffix => mkMockKeyword p.1 p.2 suffix))).flatten

/-- The five ad-group buckets (`src/keyword_service.py` lines 156-162). -/
structure AdGroups where
  brand_terms : List Keyword
  category_terms : List Keyword
  competitor_terms : List Keyword
  location_terms : List Keyword
  long_tail_terms : List Keyword
deriving DecidableEq, Repr

def empty_ad_groups : AdGroups := ⟨[], [], [], [], []⟩

/-- Which of the five buckets the loop body appends to. -/
inductive Bucket
  | brand
  | category
  | competitor
  | location
  | long_tail
deriving DecidableEq, Repr

/-- The if/elif chain of the grouping loop (`src/keyword_service.py` lines
164-177), as a function from a keyword to the bucket it is appended to. -/
def bucket_of (kw : Keyword) : Bucket :=
  let kw_text := pyLower kw.keyword
  if 3 ≤ (pySplitWs kw_text).length then .long_tail
  else if (["vs", "versus", "compared", "alternative"].any fun comp => pyContains kw_text comp) then .competitor
  else if (["near me", "local", "city", "area"].any fun loc => pyContains kw_text loc) then .location
  else if kw.competition = "HIGH" then .brand
  else .category

/-- One iteration of the grouping loop: append `kw` to its bucket. -/
def add_to_bucket (g : AdGroups) (kw : Keyword) : AdGroups :=
  match bucket_of kw with
  | .brand => { g with brand_terms := g.brand_terms ++ [kw] }
  | .category => { g with category_terms := g.category_terms ++ [kw] }
  | .competitor => { g with competitor_terms := g.competitor_terms ++ [kw] }
  | .location => { g with location_terms := g.location_terms ++ [kw] }
  | .long_tail => { g with long_tail_terms := g.long_tail_terms ++ [kw] }

/-- `group_keywords_into_ad_groups`, `src/keyword_service.py` lines 154-179. -/
def group_keywords_into_ad_groups (keywords : List Keyword) : AdGroups :=
  keywords.foldl add_to_bucket empty_ad_groups

/-- The success dict of `discover_keywords` (`src/keyword_service.py` lines
46-51). -/
structure DiscoverResult where
  total_keywords : Nat
  keywords : List Keyword
  ad_groups : AdGroups
  seed_keywords_used : List String
deriving DecidableEq, Repr

/-- The body of `discover_keywords` after the seed keywords are in hand
(`src/keyword_service.py` lines 34-51): generate ideas, filter by
`search_volume >= 500`, group into ad groups. -/
def discover_keywords_pure (seed_keywords : List String) : DiscoverResult :=
  let keyword_ideas := get_keyword_ideas_from_google seed_keywords
  let filtered_keywords := keyword_ideas.filter (fun kw => 500 ≤ kw.search_volume)
  { total_keywords := filtered_keywords.length
  , keywords := filtered_keywords
  , ad_groups := group_keywords_into_ad_groups filtered_keywords
  , seed_keywords_used := seed_keywords }

/-- The fixed fallback seed list of `extract_seed_keywords`
(`src/keyword_service.py` line 89). -/
def fallback_seeds : List String :=
  ["digital marketing", "online services", "web solutions", "business consulting"]

/-- `extract_seed_keywords`, `src/keyword_service.py` lines 57-89.  The
try-block (network fetch + BeautifulSoup parse + token extraction) is
input/output code; its outcome is passed in as an `Except`: `.ok kws` is the
`return keywords[:10]` of a successful fetch/parse, `.error e` is any raised
exception.  The except-branch (line 89) returns the fixed fallback list. -/
def extract_seed_keywords (tryResult : Except String (List String)) : List String :=
  match tryResult with
  | .ok kws => kws
  | .error _ => fallback_seeds

/-- One theme summary dict of `calculate_campaign_suggestions`
(`src/main.py` lines 109-123). -/
structure ThemeSummary where
  theme : String
  keywords : Nat
  estimated_reach : Nat
deriving DecidableEq, Repr

/-- The `themes` dict of `calculate_campaign_suggestions` (`src/main.py`
lines 97-102). -/
structure PerformanceMaxThemes where
  product_category_themes : List ThemeSummary
  use_case_themes : List ThemeSummary
  demographic_themes : List ThemeSummary
  seasonal_themes : List ThemeSummary
deriving DecidableEq, Repr

/-- The `budget_allocation` dict (`src/main.py` lines 127-132). -/
structure BudgetAllocation where
  shopping_budget : Int
  search_budget : Int
  pmax_budget : Int
  total_budget : Int
deriving DecidableEq, Repr

structure CampaignSuggestions where
  performance_max_themes : PerformanceMaxThemes
  budget_allocation : BudgetAllocation
deriving DecidableEq, Repr

/-- `calculate_campaign_suggestions`, `src/main.py` lines 93-133. -/
def calculate_campaign_suggestions (keyword_data : DiscoverResult)
    (shopping_budget search_budget pmax_budget : Int) : CampaignSuggestions :=
  let all_keywords := keyword_data.keywords
  let product_keywords := all_keywords.filter (fun kw => 5000 < kw.search_volume)
  let long_tail := keyword_data.ad_groups.long_tail_terms
  let location_based := keyword_data.ad_groups.location_terms
  { performance_max_themes :=
    { product_category_themes :=
        [⟨"High Volume Products", product_keywords.length,
          (product_keywords.map (fun kw => kw.search_volume)).sum⟩]
    , use_case_themes :=
        [⟨"Detailed Solutions", long_tail.length,
          (long_tail.map (fun kw => kw.search_volume)).sum⟩]
    , demographic_themes :=
        [⟨"Location-Based Services", location_based.length,
          (location_based.map (fun kw => kw.search_volume)).sum⟩]
    , seasonal_themes := [] }
  , budget_allocation :=
    { shopping_budget := shopping_budget
    , search_budget := search_budget
    , pmax_budget := pmax_budget
    , total_budget := shopping_budget + search_budget + pmax_budget } }

/-- One value of the `recommendations` dict (`src/main.py` lines 147-152). -/
structure CpcRec where
  suggested_cpc : ℚ
  target_cpa : ℚ
  competition : String
  priority : String
deriving DecidableEq, Repr

/-- The loop body of `calculate_cpc_recommendations` (`src/main.py` lines
143-152): the record stored for one keyword. -/
def cpc_rec_of (kw : Keyword) : CpcRec :=
  let avg_cpc := (kw.cpc_low + kw.cpc_high) / 2
  let target_cpa := avg_cpc / (2 / 100 : ℚ)
  { suggested_cpc := round2 avg_cpc
  , target_cpa := round2 target_cpa
  , competition := kw.competition
  , priority :=
      if 10000 < kw.search_volume ∧ kw.competition = "MEDIUM" then "HIGH" else "MEDIUM" }

/-- Python dict assignment `d[k] = v` on an insertion-ordered dict modelled as
an association list: overwrite in place if the key exists, else append. -/
def dictInsert (m : List (String × CpcRec)) (k : String) (v : CpcRec) :
    List (String × CpcRec) :=
  if m.any (fun p => p.1 = k) then
    m.map (fun p => if p.1 = k then (k, v) else p)
  else m ++ [(k, v)]

/-- `calculate_cpc_recommendations`, `src/main.py` lines 135-154.  The
`total_budget` parameter is accepted (the endpoint passes the sum of the three
budgets) exactly as in the source. -/
def calculate_cpc_recommendations (keywords : List Keyword) (total_budget : Int) :
    List (String × CpcRec) :=
  keywords.foldl (fun recs kw => dictInsert recs kw.keyword (cpc_rec_of kw)) []

/-- A Python exception as observable at the endpoint boundary: either a
`fastapi.HTTPException` (with status code and detail) or any other
exception (its string form). -/
inductive PyExn
  | httpException (status : Nat) (detail : String)
  | other (msg : String)
deriving DecidableEq, Repr

/-- Model of Python `str(e)`.  Starlette's `HTTPException.__str__` returns
`f"{status_code}: {detail}"`. -/
def pyStr : PyExn → String
  | .httpException status detail => toString status ++ ": " ++ detail
  | .other msg => msg

/-- The success JSON body of `POST /analyze-sem-campaign`
(`src/main.py` lines 80-87). -/
structure SuccessResponse where
  total_keywords : Nat
  keywords : List Keyword
  ad_groups : AdGroups
  campaign_suggestions : CampaignSuggestions
  cpc_recommendations : List (String × CpcRec)
  seed_keywords_used : List String
deriving DecidableEq, Repr

/-- What the endpoint sends back: a 200 with the success body, or an
`HTTPException`-driven error response. -/
inductive EndpointResult
  | ok (resp : SuccessResponse)
  | httpError (status : Nat) (detail : String)
deriving DecidableEq, Repr

/-- The HTTP status code of an endpoint result. -/
def EndpointResult.status : EndpointResult → Nat
  | .ok _ => 200
  | .httpError s _ => s

/-- The `seed_keywords_used` field of a success response ([] on error). -/
def EndpointResult.seedsUsed : EndpointResult → List String
  | .ok r => r.seed_keywords_used
  | .httpError _ _ => []

/-- The `detail` of an error response ("" on success). -/
def EndpointResult.detail : EndpointResult → String
  | .ok _ => ""
  | .httpError _ d => d

/-- The try-block of `analyze_sem_campaign` (`src/main.py` lines 47-87) from
the pipeline result onward.  `keyword_data` is what `discover_keywords`
returned: `.error msg` models the `{'error': msg}` dict, `.ok` the success
dict.  Line 65 `raise HTTPException(status_code=400, detail=...)` raises
inside the try-block. -/
def analyze_try_block (keyword_data : Except String DiscoverResult)
    (shopping_budget search_budget pmax_budget : Int) :
    Except PyExn SuccessResponse :=
  match keyword_data with
  | .error msg => .error (.httpException 400 msg)
  | .ok kd =>
    .ok { total_keywords := kd.total_keywords
        , keywords := kd.keywords
        , ad_groups := kd.ad_groups
        , campaign_suggestions :=
            calculate_campaign_suggestions kd shopping_budget search_budget pmax_budget
        , cpc_recommendations :=
            calculate_cpc_recommendations kd.keywords
              (shopping_budget + search_budget + pmax_budget)
        , seed_keywords_used := kd.seed_keywords_used }

/-- `analyze_sem_campaign`, `src/main.py` lines 41-91.  The `except Exception`
handler (lines 89-91) catches every exception raised in the try-block —
including the `HTTPException(400)` from line 65, since `HTTPException`
subclasses `Exception` — and raises `HTTPException(500, detail=str(e))`,
which FastAPI renders as a 500 response. -/
def analyze_sem_campaign (keyword_data : Except String DiscoverResult)
    (shopping_budget search_budget pmax_budget : Int) : EndpointResult :=
  match analyze_try_block keyword_data shopping_budget search_budget pmax_budget with
  | .ok resp => .ok resp
  | .error e => .httpError 500 (pyStr e)

/-- The full request path for a request whose seed extraction outcomes are
given: brand fetch outcome, optional competitor fetch outcome, then
`discover_keywords` (which, on the mocked generator path, raises nothing and
returns the success dict), then the endpoint body. -/
def handle_request (brandFetch : Except String (List String))
    (competitorFetch : Option (Except String (List String)))
    (shopping_budget search_budget pmax_budget : Int) : EndpointResult :=
  let seed_keywords :=
    extract_seed_keywords brandFetch ++
      (match competitorFetch with
       | some cf => extract_seed_keywords cf
       | none => [])
  analyze_sem_campaign (.ok (discover_keywords_pure seed_keywords))
    shopping_budget search_budget pmax_budget

/-! ## Grouping: loop-to-filter characterization -/

/-- Folding the grouping loop over a keyword list appends to each bucket
exactly the keywords the if/elif chain routes there, in order. -/
lemma foldl_add_to_bucket (kws : List Keyword) (g : AdGroups) :
    kws.foldl add_to_bucket g =
      { brand_terms := g.brand_terms ++ kws.filter (fun kw => bucket_of kw = Bucket.brand)
      , category_terms := g.category_terms ++ kws.filter (fun kw => bucket_of kw = Bucket.category)
      , competitor_terms := g.competitor_terms ++ kws.filter (fun kw => bucket_of kw = Bucket.competitor)
      , location_terms := g.location_terms ++ kws.filter (fun kw => bucket_of kw = Bucket.location)
      , long_tail_terms := g.long_tail_terms ++ kws.filter (fun kw => bucket_of kw = Bucket.long_tail) } := by
  induction kws generalizing g with
  | nil => simp
  | cons x kws ih =>
    rw [List.foldl_cons, ih]
    cases h : bucket_of x <;>
      simp [add_to_bucket, h, List.filter_cons]

/-- `group_keywords_into_ad_groups` computes the five filters of the
bucket-assignment function. -/
lemma group_eq_filters (kws : List Keyword) :
    group_keywords_into_ad_groups kws =
      { brand_terms := kws.filter (fun kw => bucket_of kw = Bucket.brand)
      , category_terms := kws.filter (fun kw => bucket_of kw = Bucket.category)
      , competitor_terms := kws.filter (fun kw => bucket_of kw = Bucket.competitor)
      , location_terms := kws.filter (fun kw => bucket_of kw = Bucket.location)
      , long_tail_terms := kws.filter (fun kw => bucket_of kw = Bucket.long_tail) } := by
  rw [group_keywords_into_ad_groups, foldl_add_to_bucket]
  rfl

lemma sum_bucket_filter_length (kws : List Keyword) :
    (kws.filter (fun kw => bucket_of kw = Bucket.brand)).length +
    (kws.filter (fun kw => bucket_of kw = Bucket.category)).length +
    (kws.filter (fun kw => bucket_of kw = Bucket.competitor)).length +
    (kws.filter (fun kw => bucket_of kw = Bucket.location)).length +
    (kws.filter (fun kw => bucket_of kw = Bucket.long_tail)).length = kws.length := by
  induction kws with
  | nil => simp
  | cons x kws ih =>
    cases h : bucket_of x <;> simp [List.filter_cons, h] <;> omega

lemma count_bucket_filter (a : Keyword) (b : Bucket) (l : List Keyword) :
    (l.filter (fun kw => bucket_of kw = b)).count a =
      if bucket_of a = b then l.count a else 0 := by
  by_cases hb : bucket_of a = b
  · simp [hb, List.count_filter]
  · simp only [hb, if_false]
    exact List.count_eq_zero.mpr (fun hm => hb (by simpa using List.of_mem_filter hm))

lemma count_bucket_filters (a : Keyword) (kws : List Keyword) :
    (kws.filter (fun kw => bucket_of kw = Bucket.brand)).count a +
    (kws.filter (fun kw => bucket_of kw = Bucket.category)).count a +
    (kws.filter (fun kw => bucket_of kw = Bucket.competitor)).count a +
    (kws.filter (fun kw => bucket_of kw = Bucket.location)).count a +
    (kws.filter (fun kw => bucket_of kw = Bucket.long_tail)).count a = kws.count a := by
  simp only [count_bucket_filter]
  cases h : bucket_of a <;> simp [h]

/-- **C3.** For every input keyword list, bucketing
(`group_keywords_into_ad_groups`) is total and exclusive: the five bucket
lists together are a permutation of the input (each keyword is placed in
exactly one bucket, with multiplicity), and in particular the number of
keywords equals the sum of the five bucket sizes. -/
theorem C3_bucketing_total_and_exclusive (kws : List Keyword) :
    (group_keywords_into_ad_groups kws).brand_terms.length +
      (group_keywords_into_ad_groups kws).category_terms.length +
      (group_keywords_into_ad_groups kws).competitor_terms.length +
      (group_keywords_into_ad_groups kws).location_terms.length +
      (group_keywords_into_ad_groups kws).long_tail_terms.length = kws.length ∧
    ((group_keywords_into_ad_groups kws).brand_terms ++
      (group_keywords_into_ad_groups kws).category_terms ++
      (group_keywords_into_ad_groups kws).competitor_terms ++
      (group_keywords_into_ad_groups kws).location_terms ++
      (group_keywords_into_ad_groups kws).long_tail_terms).Perm kws := by
  rw [group_eq_filters]
  refine ⟨sum_bucket_filter_length kws, ?_⟩
  rw [List.perm_iff_count]
  intro a
  simp only [List.count_append]
  have := count_bucket_filters a kws
  omega

/-- The if/elif chain of the grouping loop, characterised rule by rule on the
lower-cased keyword text. -/
lemma bucket_of_cases (kw : Keyword) :
    (bucket_of kw = Bucket.long_tail ↔
      3 ≤ (pySplitWs (pyLower kw.keyword)).length) ∧
    (bucket_of kw = Bucket.competitor ↔
      ¬ 3 ≤ (pySplitWs (pyLower kw.keyword)).length ∧
      (pyContains (pyLower kw.keyword) "vs" = true ∨
       pyContains (pyLower kw.keyword) "versus" = true ∨
       pyContains (pyLower kw.keyword) "compared" = true ∨
       pyContains (pyLower kw.keyword) "alternative" = true)) ∧
    (bucket_of kw = Bucket.location ↔
      ¬ 3 ≤ (pySplitWs (pyLower kw.keyword)).length ∧
      ¬ (pyContains (pyLower kw.keyword) "vs" = true ∨
         pyContains (pyLower kw.keyword) "versus" = true ∨
         pyContains (pyLower kw.keyword) "compared" = true ∨
         pyContains (pyLower kw.keyword) "alternative" = true) ∧
      (pyContains (pyLower kw.keyword) "near me" = true ∨
       pyContains (pyLower kw.keyword) "local" = true ∨
       pyContains (pyLower kw.keyword) "city" = true ∨
       pyContains (pyLower kw.keyword) "area" = true)) ∧
    (bucket_of kw = Bucket.brand ↔
      ¬ 3 ≤ (pySplitWs (pyLower kw.keyword)).length ∧
      ¬ (pyContains (pyLower kw.keyword) "vs" = true ∨
         pyContains (pyLower kw.keyword) "versus" = true ∨
         pyContains (pyLower kw.keyword) "compared" = true ∨
         pyContains (pyLower kw.keyword) "alternative" = true) ∧
      ¬ (pyContains (pyLower kw.keyword) "near me" = true ∨
         pyContains (pyLower kw.keyword) "local" = true ∨
         pyContains (pyLower kw.keyword) "city" = true ∨
         pyContains (pyLower kw.keyword) "area" = true) ∧
      kw.competition = "HIGH") ∧
    (bucket_of kw = Bucket.category ↔
      ¬ 3 ≤ (pySplitWs (pyLower kw.keyword)).length ∧
      ¬ (pyContains (pyLower kw.keyword) "vs" = true ∨
         pyContains (pyLower kw.keyword) "versus" = true ∨
         pyContains (pyLower kw.keyword) "compared" = true ∨
         pyContains (pyLower kw.keyword) "alternative" = true) ∧
      ¬ (pyContains (pyLower kw.keyword) "near me" = true ∨
         pyContains (pyLower kw.keyword) "local" = true ∨
         pyContains (pyLower kw.keyword) "city" = true ∨
         pyContains (pyLower kw.keyword) "area" = true) ∧
      kw.competition ≠ "HIGH") := by
  simp only [bucket_of]
  split_ifs with h1 h2 h3 h4 <;>
    simp_all [List.any_cons, List.any_nil, Bool.or_eq_true]

set_option maxHeartbeats 1000000

/-- **C4.** Every keyword is bucketed by the documented first-match priority
on the lower-cased keyword text: (1) three or more words → long-tail;
(2) a competitor-comparison token → competitor; (3) a locality token →
location; (4) competition HIGH → brand; (5) otherwise category. -/
theorem C4_bucket_first_match_priority (kws : List Keyword) (kw : Keyword) :
    (kw ∈ (group_keywords_into_ad_groups kws).long_tail_terms ↔
      kw ∈ kws ∧ 3 ≤ (pySplitWs (pyLower kw.keyword)).length) ∧
    (kw ∈ (group_keywords_into_ad_groups kws).competitor_terms ↔
      kw ∈ kws ∧ ¬ 3 ≤ (pySplitWs (pyLower kw.keyword)).length ∧
      (pyContains (pyLower kw.keyword) "vs" = true ∨
       pyContains (pyLower kw.keyword) "versus" = true ∨
       pyContains (pyLower kw.keyword) "compared" = true ∨
       pyContains (pyLower kw.keyword) "alternative" = true)) ∧
    (kw ∈ (group_keywords_into_ad_groups kws).location_terms ↔
      kw ∈ kws ∧ ¬ 3 ≤ (pySplitWs (pyLower kw.keyword)).length ∧
      ¬ (pyContains (pyLower kw.keyword) "vs" = true ∨
         pyContains (pyLower kw.keyword) "versus" = true ∨
         pyContains (pyLower kw.keyword) "compared" = true ∨
         pyContains (pyLower kw.keyword) "alternative" = true) ∧
      (pyContains (pyLower kw.keyword) "near me" = true ∨
       pyContains (pyLower kw.keyword) "local" = true ∨
       pyContains (pyLower kw.keyword) "city" = true ∨
       pyContains (pyLower kw.keyword) "area" = true)) ∧
    (kw ∈ (group_keywords_into_ad_groups kws).brand_terms ↔
      kw ∈ kws ∧ ¬ 3 ≤ (pySplitWs (pyLower kw.keyword)).length ∧
      ¬ (pyContains (pyLower kw.keyword) "vs" = true ∨
         pyContains (pyLower kw.keyword) "versus" = true ∨
         pyContains (pyLower kw.keyword) "compared" = true ∨
         pyContains (pyLower kw.keyword) "alternative" = true) ∧
      ¬ (pyContains (pyLower kw.keyword) "near me" = true ∨
         pyContains (pyLower kw.keyword) "local" = true ∨
         pyContains (pyLower kw.keyword) "city" = true ∨
         pyContains (pyLower kw.keyword) "area" = true) ∧
      kw.competition = "HIGH") ∧
    (kw ∈ (group_keywords_into_ad_groups kws).category_terms ↔
      kw ∈ kws ∧ ¬ 3 ≤ (pySplitWs (pyLower kw.keyword)).length ∧
      ¬ (pyContains (pyLower kw.keyword) "vs" = true ∨
         pyContains (pyLower kw.keyword) "versus" = true ∨
         pyContains (pyLower kw.keyword) "compared" = true ∨
         pyContains (pyLower kw.keyword) "alternative" = true) ∧
      ¬ (pyContains (pyLower kw.keyword) "near me" = true ∨
         pyContains (pyLower kw.keyword) "local" = true ∨
         pyContains (pyLower kw.keyword) "city" = true ∨
         pyContains (pyLower kw.keyword) "area" = true) ∧
      kw.competition ≠ "HIGH") := by
  obtain ⟨hlt, hcomp, hloc, hbr, hcat⟩ := bucket_of_cases kw
  rw [group_eq_filters]
  simp only [List.mem_filter, decide_eq_true_eq]
  rw [hlt, hcomp, hloc, hbr, hcat]
  exact ⟨Iff.rfl, Iff.rfl, Iff.rfl, Iff.rfl, Iff.rfl⟩

/-! ## The discovery pipeline: filtering and totals -/

/-- **C7.** `discover_keywords` returns in `keywords` exactly the generated
records whose `search_volume` is at least 500, and every record it returns
has `search_volume ≥ 500`. -/
theorem C7_keywords_are_volume_filtered (seeds : List String) :
    (discover_keywords_pure seeds).keywords =
      (get_keyword_ideas_from_google seeds).filter (fun kw => 500 ≤ kw.search_volume) ∧
    (∀ kw : Keyword, kw ∈ (discover_keywords_pure seeds).keywords ↔
      kw ∈ get_keyword_ideas_from_google seeds ∧ 500 ≤ kw.search_volume) ∧
    (discover_keywords_pure seeds).keywords.all
      (fun kw => 500 ≤ kw.search_volume) = true := by
  refine ⟨rfl, fun kw => ?_, ?_⟩
  · simp [discover_keywords_pure, List.mem_filter]
  · rw [List.all_eq_true]
    intro kw hkw
    simp only [discover_keywords_pure] at hkw
    simpa using (List.mem_filter.mp hkw).2

/-- Every record produced by the mocked generator arises from a seed index
below 10 and one of the six suffixes. -/
lemma mem_get_keyword_ideas {seeds : List String} {kw : Keyword}
    (h : kw ∈ get_keyword_ideas_from_google seeds) :
    ∃ i seed suffix, i < 10 ∧ suffix ∈ mock_suffixes ∧ kw = mkMockKeyword i seed suffix := by
  simp only [get_keyword_ideas_from_google, List.mem_flatten, List.mem_map] at h
  obtain ⟨l, ⟨p, hp, rfl⟩, hkw⟩ := h
  obtain ⟨suffix, hsuf, rfl⟩ := List.mem_map.mp hkw
  refine ⟨p.1, p.2, suffix, ?_, hsuf, rfl⟩
  have hlt : p.1 < (seeds.take 10).length := by
    have := List.mem_enum_iff_getElem?.mp hp
    exact (List.getElem?_eq_some.mp this).1
  have : (seeds.take 10).length ≤ 10 := by
    simp [List.length_take]
  omega

lemma base_volumes_min (j : Nat) (h : j < 10) : 600 ≤ base_volumes.getD j 0 := by
  have hall : ∀ j < 10, 600 ≤ base_volumes.getD j 0 := by decide
  exact hall j h

/-- The length of the mocked generator's output: 6 records per seed used,
with at most 10 seeds used. -/
lemma get_keyword_ideas_length (seeds : List String) :
    (get_keyword_ideas_from_google seeds).length = 6 * min seeds.length 10 := by
  simp only [get_keyword_ideas_from_google, List.length_flatten, List.map_map]
  have hmap : ((seeds.take 10).enum.map
      (List.length ∘ fun p => mock_suffixes.map (mkMockKeyword p.1 p.2))) =
      (seeds.take 10).enum.map (fun _ => 6) := by
    apply List.map_congr_left
    intro p _
    simp [mock_suffixes]
  rw [hmap]
  rw [List.map_const']
  rw [List.sum_replicate]
  simp [List.enum_length, List.length_take]
  omega

/-- **C10.** Every keyword produced by the mocked generator has
`search_volume ≥ 600`, so the `≥ 500` filter in `discover_keywords` removes
nothing and `total_keywords` is always 6 times the number of seeds used
(capped at 10). -/
theorem C10_filter_removes_nothing (seeds : List String) :
    (get_keyword_ideas_from_google seeds).all
      (fun kw => 600 ≤ kw.search_volume) = true ∧
    (discover_keywords_pure seeds).total_keywords = 6 * min seeds.length 10 := by
  have hall : ∀ kw ∈ get_keyword_ideas_from_google seeds, 600 ≤ kw.search_volume := by
    intro kw hkw
    obtain ⟨i, seed, suffix, hi, _, rfl⟩ := mem_get_keyword_ideas hkw
    have hbase : 600 ≤ base_volumes.getD (i % base_volumes.length) 0 := by
      apply base_volumes_min
      have hlen : base_volumes.length = 10 := rfl
      rw [hlen]
      omega
    calc 600 ≤ base_volumes.getD (i % base_volumes.length) 0 := hbase
      _ ≤ base_volumes.getD (i % base_volumes.length) 0 + i * 100 := Nat.le_add_right _ _
  constructor
  · rw [List.all_eq_true]
    intro kw hkw
    simpa using hall kw hkw
  · have hfilter : (get_keyword_ideas_from_google seeds).filter
        (fun kw => 500 ≤ kw.search_volume) = get_keyword_ideas_from_google seeds := by
      apply List.filter_eq_self.mpr
      intro kw hkw
      have := hall kw hkw
      simp only [decide_eq_true_eq]
      omega
    simp only [discover_keywords_pure, hfilter]
    exact get_keyword_ideas_length seeds

/-! ## CPC recommendations -/

lemma mem_dictInsert {m : List (String × CpcRec)} {k : String} {v : CpcRec}
    {p : String × CpcRec} (h : p ∈ dictInsert m k v) : p ∈ m ∨ p = (k, v) := by
  unfold dictInsert at h
  split at h
  · obtain ⟨q, hq, hfq⟩ := List.mem_map.mp h
    by_cases hk : q.1 = k
    · right
      rw [if_pos hk] at hfq
      exact hfq.symm
    · left
      rw [if_neg hk] at hfq
      rwa [hfq] at hq
  · rcases List.mem_append.mp h with h1 | h2
    · exact Or.inl h1
    · exact Or.inr (by simpa using h2)

lemma mem_calculate_cpc_aux (kws : List Keyword) (acc : List (String × CpcRec))
    {p : String × CpcRec}
    (h : p ∈ kws.foldl (fun recs kw => dictInsert recs kw.keyword (cpc_rec_of kw)) acc) :
    p ∈ acc ∨ ∃ kw ∈ kws, p = (kw.keyword, cpc_rec_of kw) := by
  induction kws generalizing acc with
  | nil => exact Or.inl h
  | cons x kws ih =>
    rcases ih _ h with hacc | ⟨kw, hkw, rfl⟩
    · rcases mem_dictInsert hacc with h1 | h2
      · exact Or.inl h1
      · exact Or.inr ⟨x, List.mem_cons_self x kws, h2⟩
    · exact Or.inr ⟨kw, List.mem_cons_of_mem _ hkw, rfl⟩

/-- Every entry of the `cpc_recommendations` dict is the loop-body record of
some input keyword with that text. -/
lemma mem_calculate_cpc {kws : List Keyword} {b : Int} {p : String × CpcRec}
    (h : p ∈ calculate_cpc_recommendations kws b) :
    ∃ kw ∈ kws, p = (kw.keyword, cpc_rec_of kw) := by
  rcases mem_calculate_cpc_aux kws [] h with h0 | h1
  · simp at h0
  · exact h1

/-- Sample keyword with the spec's example CPC bounds. -/
def kwLow : Keyword := ⟨"running shoes", 1000, "LOW", 0.5, 1.2⟩

/-- Sample keyword: high volume, MEDIUM competition. -/
def kwMed : Keyword := ⟨"a", 12000, "MEDIUM", 0.5, 1.2⟩

/-- Sample keyword: high volume, HIGH competition. -/
def kwHighComp : Keyword := ⟨"a", 12000, "HIGH", 0.5, 1.2⟩

/-- **C5.** Every CPC recommendation entry has `suggested_cpc` the rounded
average of `cpc_low` and `cpc_high` and `target_cpa` the rounded value of
that average divided by the 2% conversion rate; in particular
`cpc_low = 0.5, cpc_high = 1.2` yields `suggested_cpc = 0.85` and
`target_cpa = 42.5`. -/
theorem C5_cpc_formula :
    (∀ (kws : List Keyword) (total_budget : Int) (p : String × CpcRec),
      p ∈ calculate_cpc_recommendations kws total_budget →
      ∃ kw ∈ kws, p.1 = kw.keyword ∧
        p.2.suggested_cpc = round2 ((kw.cpc_low + kw.cpc_high) / 2) ∧
        p.2.target_cpa = round2 (((kw.cpc_low + kw.cpc_high) / 2) / (2 / 100))) ∧
    calculate_cpc_recommendations [kwLow] 0 =
      [("running shoes", ⟨0.85, 42.5, "LOW", "MEDIUM"⟩)] := by
  constructor
  · intro kws b p hp
    obtain ⟨kw, hkw, rfl⟩ := mem_calculate_cpc hp
    exact ⟨kw, hkw, rfl, rfl, rfl⟩
  · simp [calculate_cpc_recommendations, dictInsert, cpc_rec_of, kwLow, round2]
    norm_num [round_eq]

theorem C5_cpc_formula_witness :
    ∃ kw ∈ [kwLow],
      ("running shoes", cpc_rec_of kwLow).1 = kw.keyword ∧
      ("running shoes", cpc_rec_of kwLow).2.suggested_cpc =
        round2 ((kw.cpc_low + kw.cpc_high) / 2) ∧
      ("running shoes", cpc_rec_of kwLow).2.target_cpa =
        round2 (((kw.cpc_low + kw.cpc_high) / 2) / (2 / 100)) :=
  C5_cpc_formula.1 [kwLow] 0 ("running shoes", cpc_rec_of kwLow)
    (by simp [calculate_cpc_recommendations, dictInsert, kwLow])

/-- **C6.** A recommendation's priority is HIGH exactly when
`search_volume > 10000` and competition is MEDIUM, else MEDIUM; in
particular volume 12000 with MEDIUM competition is HIGH and volume 12000
with HIGH competition is MEDIUM. -/
theorem C6_priority_rule :
    (∀ (kws : List Keyword) (total_budget : Int) (p : String × CpcRec),
      p ∈ calculate_cpc_recommendations kws total_budget →
      ∃ kw ∈ kws, p.1 = kw.keyword ∧
        (p.2.priority = "HIGH" ↔ 10000 < kw.search_volume ∧ kw.competition = "MEDIUM") ∧
        (¬ (10000 < kw.search_volume ∧ kw.competition = "MEDIUM") →
          p.2.priority = "MEDIUM")) ∧
    (calculate_cpc_recommendations [kwMed] 0).map (fun q => q.2.priority) = ["HIGH"] ∧
    (calculate_cpc_recommendations [kwHighComp] 0).map (fun q => q.2.priority) = ["MEDIUM"] := by
  refine ⟨?_, ?_, ?_⟩
  · intro kws b p hp
    obtain ⟨kw, hkw, rfl⟩ := mem_calculate_cpc hp
    refine ⟨kw, hkw, rfl, ?_, ?_⟩
    · by_cases hc : 10000 < kw.search_volume ∧ kw.competition = "MEDIUM" <;>
        simp [cpc_rec_of, hc]
    · intro hc
      simp [cpc_rec_of, hc]
  · simp [calculate_cpc_recommendations, dictInsert, cpc_rec_of, kwMed]
  · simp [calculate_cpc_recommendations, dictInsert, cpc_rec_of, kwHighComp]

theorem C6_priority_rule_witness :
    ∃ kw ∈ [kwMed],
      ("a", cpc_rec_of kwMed).1 = kw.keyword ∧
      (("a", cpc_rec_of kwMed).2.priority = "HIGH" ↔
        10000 < kw.search_volume ∧ kw.competition = "MEDIUM") ∧
      (¬ (10000 < kw.search_volume ∧ kw.competition = "MEDIUM") →
        ("a", cpc_rec_of kwMed).2.priority = "MEDIUM") :=
  C6_priority_rule.1 [kwMed] 0 ("a", cpc_rec_of kwMed)
    (by simp [calculate_cpc_recommendations, dictInsert, kwMed])

/-- **C9.** `calculate_cpc_recommendations` is independent of its
`total_budget` argument: any two budgets give identical output for the same
keyword list.  (The endpoint passes the sum of the three request budgets,
but the function never reads it.) -/
theorem C9_cpc_ignores_budget (kws : List Keyword) (b1 b2 : Int) :
    calculate_cpc_recommendations kws b1 = calculate_cpc_recommendations kws b2 := rfl

/-! ## Endpoint behaviour -/

/-- **C1** (evaluated against the code).  When the pipeline reports an error
key, the endpoint does NOT respond 400: the `HTTPException(400, detail)`
raised on `src/main.py` line 65 is raised inside the `try:` block, so the
blanket `except Exception` on line 89 catches it (FastAPI's `HTTPException`
subclasses `Exception`) and re-raises `HTTPException(500, str(e))`, whose
detail is the string form `"400: <message>"`.  The client therefore sees
HTTP 500, contradicting the specified 400. -/
theorem C1_pipeline_error_yields_500 :
    (∀ (msg : String) (sb se pb : Int),
      analyze_sem_campaign (.error msg) sb se pb =
        .httpError 500 ("400: " ++ msg)) ∧
    analyze_sem_campaign (.error "boom") 100 200 300 =
      .httpError 500 "400: boom" ∧
    (analyze_sem_campaign (.error "boom") 100 200 300).status ≠ 400 := by
  refine ⟨fun msg sb se pb => rfl, rfl, by decide⟩

/-- **C2 counterexample.**  The claim's volume list `[1000, 1100, 1100, 1100,
1100, 1100]` for seed `["shoes"]` is wrong: the volume formula uses the seed
index `i` of the outer loop, which is 0 for every suffix of the single seed,
so all six variants get volume 1000. -/
theorem C2_volumes_counterexample :
    ¬ ((get_keyword_ideas_from_google ["shoes"]).map (fun kw => kw.keyword) =
        ["shoes", "shoes online", "shoes shop", "shoes buy", "shoes best", "shoes reviews"] ∧
       (get_keyword_ideas_from_google ["shoes"]).map (fun kw => kw.search_volume) =
        [1000, 1100, 1100, 1100, 1100, 1100]) := by
  decide

/-- **C2 (amended).**  Given the single seed list `["shoes"]`, the mocked
generator produces exactly the 6 variants `shoes, shoes online, shoes shop,
shoes buy, shoes best, shoes reviews`, each with search volume 1000
(base volume 1000 for seed index 0, plus 0·100). -/
theorem C2_shoes_variants :
    (get_keyword_ideas_from_google ["shoes"]).map (fun kw => kw.keyword) =
      ["shoes", "shoes online", "shoes shop", "shoes buy", "shoes best", "shoes reviews"] ∧
    (get_keyword_ideas_from_google ["shoes"]).map (fun kw => kw.search_volume) =
      [1000, 1000, 1000, 1000, 1000, 1000] := by
  decide

/-- **C8.** Any fetch/parse failure in seed extraction yields the fixed
four-phrase fallback list instead of an error, and a request whose
brand-website fetch fails (no competitor site) still gets a 200 response
whose `seed_keywords_used` is exactly that fallback list. -/
theorem C8_fallback_on_fetch_failure :
    (∀ e : String, extract_seed_keywords (.error e) = fallback_seeds) ∧
    (∀ (e : String) (sb se pb : Int),
      (handle_request (.error e) none sb se pb).status = 200 ∧
      (handle_request (.error e) none sb se pb).seedsUsed = fallback_seeds) := by
  exact ⟨fun e => rfl, fun e sb se pb => ⟨rfl, rfl⟩⟩
